import Mathlib

/-!
# Verification of `pronto/relationship.py`

A shallow embedding of the `Relationship` class of the `pronto` package.
The class behaves as a factory memoizing its instances in the class-level
`OrderedDict` `_instances`.  Object identity matters for the specification
(records are compared by identity), so we model the Python heap explicitly:
an object is an index into a list of allocation slots, and the registry
maps strings to such indices in insertion order, with in-place value update
on key reassignment (the semantics of `collections.OrderedDict`).
-/

set_option autoImplicit false

namespace Pronto

/-- The attribute record of a fully-initialised `Relationship` object
(the attributes set by `Relationship.__init__`).  Python `None` values of
the tri-state flags are `Option.none`; `prefix` is rendered `pfx` because
`prefix` is not a usable identifier in Lean. -/
structure RelData where
  obo_name : String
  symmetry : Option Bool
  transitivity : Option Bool
  reflexivity : Option Bool
  complementary : String
  pfx : String
  direction : String
  comment : String
  aliases : List String
  deriving Repr, DecidableEq

/-- The optional keyword arguments of `Relationship.__init__` after the
positional `obo_name`.  Each field is `none` when the argument is omitted
(Python default `None`). -/
structure Args where
  symmetry : Option Bool
  transitivity : Option Bool
  reflexivity : Option Bool
  complementary : Option String
  pfx : Option String
  direction : Option String
  comment : Option String
  aliases : Option (List String)
  deriving Repr, DecidableEq

/-- The all-`None` argument list: `Relationship(name)` with no keywords. -/
def Args.empty : Args :=
  ⟨none, none, none, none, none, none, none, none⟩

/-- Python exceptions that the embedded code can raise. -/
inductive PyErr where
  | valueError (msg : String)
  | attributeError (attr : String)
  deriving Repr, DecidableEq

/-- The interpreter state: the heap of allocated `Relationship` objects
(`objs`, indexed by allocation order; a slot holds `none` while the object
is allocated by `__new__` but not yet initialised by `__init__`) and the
class attribute `_instances` (`inst`), an `OrderedDict` from names and
aliases to object indices. -/
structure PState where
  objs : List (Option RelData)
  inst : List (String × Nat)
  deriving Repr, DecidableEq

/-- The state before any registration: empty heap, empty `_instances`. -/
def PState.empty : PState := ⟨[], []⟩

/-- `OrderedDict` lookup: first (and only) binding of the key. -/
def odLookup (m : List (String × Nat)) (k : String) : Option Nat :=
  match m with
  | [] => none
  | (k', v) :: rest => if k' = k then some v else odLookup rest k

/-- `k in d` for an `OrderedDict`. -/
def odContains (m : List (String × Nat)) (k : String) : Bool :=
  (odLookup m k).isSome

/-- `OrderedDict` assignment `d[k] = v`: an existing key keeps its
position and gets the new value; a new key is appended at the end. -/
def odSet (m : List (String × Nat)) (k : String) (v : Nat) : List (String × Nat) :=
  match m with
  | [] => [(k, v)]
  | (k', v') :: rest => if k' = k then (k, v) :: rest else (k', v') :: odSet rest k v

/-- `Relationship.__new__`: if `obo_name` keys `_instances` return the
memoized object, else allocate a fresh bare object (Python
`object.__new__`, which sets no attributes and does not touch
`_instances`). -/
def relNew (s : PState) (obo_name : String) : Nat × PState :=
  match odLookup s.inst obo_name with
  | some i => (i, s)
  | none => (s.objs.length, ⟨s.objs ++ [none], s.inst⟩)

/-- The attribute block of `Relationship.__init__`: each `self.x = ...`
assignment, with Python `arg or default` rendered as `Option.getD` (the
arguments are either `None` or a value; for a passed list or string the
source's truthiness test gives the same result because `[] or list()`
is `[]` and `'' or ''` is `''`).  Note the source assigns the
`reflexivity` argument to `self.transitivity`
(`self.transitivity = reflexivity`). -/
def mkData (obo_name : String) (a : Args) : RelData :=
  ⟨obo_name, a.symmetry, a.reflexivity, a.reflexivity,
   a.complementary.getD "", a.pfx.getD "", a.direction.getD "",
   a.comment.getD "", a.aliases.getD []⟩

/-- The alias loop of `Relationship.__init__`:
`for alias in self.aliases: self._instances[alias] = self` — each
iteration is an unconditional `OrderedDict` store of object `i`. -/
def aliasFold (i : Nat) (st : PState) (l : List String) : PState :=
  l.foldl (fun st al => ⟨st.objs, odSet st.inst al i⟩) st

/-- `Relationship.__init__` run on object `self`: guarded by
`if obo_name not in self._instances`; when the guard passes it sets the
attributes (`mkData`), registers `self` under `obo_name`
(`self._instances[obo_name] = self`), then runs the alias loop. -/
def relInit (s : PState) (self : Nat) (obo_name : String) (a : Args) : PState :=
  if odContains s.inst obo_name then s
  else
    aliasFold self
      ⟨s.objs.set self (some (mkData obo_name a)), odSet s.inst obo_name self⟩
      (a.aliases.getD [])

/-- A Python construction expression `Relationship(obo_name, ...)`:
`__new__` followed by `__init__` on its result. -/
def Relationship (s : PState) (obo_name : String) (a : Args) : Nat × PState :=
  let p := relNew s obo_name
  (p.1, relInit p.2 p.1 obo_name a)

/-- Python `str.lower`, embedded character-wise over the underlying
character list (the stanza values compared by `_from_obo_dict` are plain
ASCII keywords, for which this is exactly Python's `lower`). -/
def lower (s : String) : String :=
  ⟨s.data.map Char.toLower⟩

/-- `pat` matches at the head of `l` (every character of `pat` in order). -/
def charsMatchAt : List Char → List Char → Bool
  | _, [] => true
  | [], _ :: _ => false
  | c :: cs, p :: ps => c == p && charsMatchAt cs ps

/-- `pat` occurs contiguously somewhere in `l` — used to state whether an
error message carries a given name. -/
def hasSubstring : List Char → List Char → Bool
  | [], pat => charsMatchAt [] pat
  | l@(_ :: rest), pat => charsMatchAt l pat || hasSubstring rest pat

/-- The message of the `ValueError` raised by `Relationship.complement`:
the source writes
`raise ValueError('\x7b\x7d has a complementary but it was not defined !')`
and never calls `.format` on the string, so the `\x7b\x7d` placeholder is
part of the message verbatim. -/
def complementUndefinedMsg : String :=
  "\x7b\x7d has a complementary but it was not defined !"

/-- `Relationship.complement`, embedded statefully: it only reads the
state, and every exit path returns the state it was given.  The reads of
`self.complementary` and `self._instances[self.complementary]` are made
explicit: an uninitialised object has no `complementary` attribute
(`AttributeError`); a set-but-unregistered complementary name raises
`ValueError` with the unformatted message `complementUndefinedMsg`. -/
def complement (s : PState) (self : Nat) : Except PyErr (Option Nat) × PState :=
  match s.objs.getD self none with
  | none => (Except.error (PyErr.attributeError "complementary"), s)
  | some d =>
    if d.complementary ≠ "" then
      match odLookup s.inst d.complementary with
      | some r => (Except.ok (some r), s)
      | none => (Except.error (PyErr.valueError complementUndefinedMsg), s)
    else (Except.ok none, s)

/-- Modelled from the spec: `unique_everseen` of `pronto/utils.py` is not
under `src/`; the spec describes it as deduplication keeping the first
occurrence, in first-seen order ("dedup by identity", "first-seen order
over the registry's insertion sequence").  Objects are their heap indices
here, so identity is index equality. -/
def uniqueEverseenAux : List Nat → List Nat → List Nat
  | [], _ => []
  | x :: xs, seen =>
    if x ∈ seen then uniqueEverseenAux xs seen
    else x :: uniqueEverseenAux xs (x :: seen)

/-- Modelled from the spec: see `uniqueEverseenAux`. -/
def unique_everseen (l : List Nat) : List Nat :=
  uniqueEverseenAux l []

/-- The generator `(r for r in cls._instances.values() if r.direction==dir)`:
iterating an `OrderedDict`'s values in insertion order and keeping objects
whose `direction` attribute equals `dir`.  Reading `r.direction` on an
uninitialised object raises `AttributeError`. -/
def filterDirection (s : PState) (dir : String) : List Nat → Except PyErr (List Nat)
  | [] => Except.ok []
  | i :: rest =>
    match s.objs.getD i none with
    | none => Except.error (PyErr.attributeError "direction")
    | some d =>
      (filterDirection s dir rest).map
        (fun tl => if d.direction = dir then i :: tl else tl)

/-- `Relationship.topdown`:
`tuple(unique_everseen(r for r in cls._instances.values() if r.direction=='topdown'))`. -/
def topdown (s : PState) : Except PyErr (List Nat) :=
  (filterDirection s "topdown" (s.inst.map Prod.snd)).map unique_everseen

/-- `Relationship.bottomup`:
`tuple(unique_everseen(r for r in cls._instances.values() if r.direction=='bottomup'))`. -/
def bottomup (s : PState) : Except PyErr (List Nat) :=
  (filterDirection s "bottomup" (s.inst.map Prod.snd)).map unique_everseen

/-- `Relationship.__getnewargs__`: a record pickles to `(self.obo_name,)`
(`__getstate__` returns `None`, so the name is the whole serialised
payload). -/
def getnewargs (s : PState) (self : Nat) : Except PyErr String :=
  match s.objs.getD self none with
  | none => Except.error (PyErr.attributeError "obo_name")
  | some d => Except.ok d.obo_name

/-- Unpickling a serialised `Relationship`: with pickle protocol 2 the
object is rebuilt as `cls.__new__(cls, *newargs)` — `__init__` is not
called, and `__setstate__` is a no-op (`__getstate__` returned `None`) —
so deserialisation is exactly `relNew`. -/
def unpickle (s : PState) (name : String) : Nat × PState :=
  relNew s name

/-- An OBO stanza as consumed by `Relationship._from_obo_dict`: the `id`
key is read unconditionally, the five optional keys raise `KeyError` when
absent, which the source catches (`none` = absent). -/
structure OboDict where
  id : String
  inverse_of : Option String
  is_transitive : Option String
  is_symmetric : Option String
  is_reflexive : Option String
  is_antisymetric : Option String
  deriving Repr, DecidableEq

/-- Python `x or None` on a tri-state (`None`/`True`/`False`) value:
`False` is falsy, so it collapses to `None`. -/
def triOrNone : Option Bool → Option Bool
  | some true => some true
  | _ => none

/-- `Relationship._from_obo_dict`: short-circuit on a registered `id`;
otherwise parse `inverse_of` (absent → `""`), the three tri-states by
case-insensitive comparison of the value to `"true"` (absent → `None`),
then rebind `symmetry` from `is_antisymetric` compared to `"false"` when
that key is present, and to `symmetry or None` when it is absent; finally
construct `Relationship(id, symmetry=.., transitivity=.., reflexivity=..,
complementary=..)`. -/
def from_obo_dict (s : PState) (d : OboDict) : Nat × PState :=
  match odLookup s.inst d.id with
  | some i => (i, s)
  | none =>
    let complementary : String :=
      match d.inverse_of with
      | some v => v
      | none => ""
    let transitivity : Option Bool :=
      match d.is_transitive with
      | some v => some (lower v = "true")
      | none => none
    let symmetry : Option Bool :=
      match d.is_symmetric with
      | some v => some (lower v = "true")
      | none => none
    let reflexivity : Option Bool :=
      match d.is_reflexive with
      | some v => some (lower v = "true")
      | none => none
    let symmetry : Option Bool :=
      match d.is_antisymetric with
      | some v => some (lower v = "false")
      | none => triOrNone symmetry
    Relationship s d.id
      ⟨symmetry, transitivity, reflexivity, some complementary,
       none, none, none, none⟩

/-- The symmetry value a stanza actually produces, written from the
amended specification words (independently of the let-chain of
`from_obo_dict`): a present `is_antisymetric` forces
`symmetry = (value ==ᶜ "false")`; otherwise `is_symmetric` parsed
case-insensitively against `"true"` yields `true` or — because a parsed
`False` is collapsed by the source's `symmetry or None` — unknown. -/
def specSymmetry (d : OboDict) : Option Bool :=
  match d.is_antisymetric with
  | some v => some (lower v = "false")
  | none =>
    match d.is_symmetric with
    | some v => if lower v = "true" then some true else none
    | none => none

/-- The module-level seed registrations executed at import, in source
order. -/
def seedState : PState :=
  let s := (Relationship PState.empty "is_a"
    ⟨some false, some true, some true, some "can_be",
     none, some "bottomup", none, none⟩).2
  let s := (Relationship s "can_be"
    ⟨some false, some true, some true, some "is_a",
     none, some "topdown", none, none⟩).2
  let s := (Relationship s "has_part"
    ⟨some false, some true, some true, some "part_of",
     none, some "topdown", none, none⟩).2
  let s := (Relationship s "part_of"
    ⟨some false, some true, some true, some "has_part",
     none, some "bottomup", none, some ["is_part"]⟩).2
  let s := (Relationship s "has_units"
    ⟨some false, some false, none, none, none, none, none, none⟩).2
  (Relationship s "has_domain"
    ⟨some false, some false, none, none, none, none, none, none⟩).2

/-! ## Registry lemmas -/

theorem odLookup_odSet_self (m : List (String × Nat)) (k : String) (v : Nat) :
    odLookup (odSet m k v) k = some v := by
  induction m with
  | nil => simp [odSet, odLookup]
  | cons p rest ih =>
    by_cases h : p.1 = k <;> simp [odSet, odLookup, h, ih]

theorem odLookup_odSet_ne (m : List (String × Nat)) (k : String) (v : Nat)
    (n : String) (h : n ≠ k) : odLookup (odSet m k v) n = odLookup m n := by
  induction m with
  | nil => simp [odSet, odLookup, Ne.symm h]
  | cons p rest ih =>
    by_cases hp : p.1 = k
    · subst hp
      simp [odSet, odLookup, Ne.symm h]
    · simp [odSet, odLookup, hp, ih]

theorem odLookup_odSet_same_val (m : List (String × Nat)) (k : String)
    (n : String) (i : Nat) (h : odLookup m n = some i) :
    odLookup (odSet m k i) n = some i := by
  by_cases hk : n = k
  · subst hk
    exact odLookup_odSet_self m n i
  · rw [odLookup_odSet_ne m k i n hk]
    exact h

theorem aliasFold_objs (i : Nat) (l : List String) (st : PState) :
    (aliasFold i st l).objs = st.objs := by
  induction l generalizing st with
  | nil => rfl
  | cons al rest ih => simpa [aliasFold, List.foldl] using ih ⟨st.objs, odSet st.inst al i⟩

theorem aliasFold_lookup_preserve (i : Nat) (l : List String) (st : PState)
    (n : String) (h : odLookup st.inst n = some i) :
    odLookup (aliasFold i st l).inst n = some i := by
  induction l generalizing st with
  | nil => exact h
  | cons al rest ih =>
    have hstep : odLookup (odSet st.inst al i) n = some i :=
      odLookup_odSet_same_val st.inst al n i h
    simpa [aliasFold, List.foldl] using ih ⟨st.objs, odSet st.inst al i⟩ hstep

theorem aliasFold_lookup_mem (i : Nat) (l : List String) (st : PState)
    (K : String) (hK : K ∈ l) : odLookup (aliasFold i st l).inst K = some i := by
  induction l generalizing st with
  | nil => cases hK
  | cons al rest ih =>
    rcases List.mem_cons.mp hK with h | h
    · subst h
      have hstep : odLookup (odSet st.inst K i) K = some i :=
        odLookup_odSet_self st.inst K i
      simpa [aliasFold, List.foldl] using
        aliasFold_lookup_preserve i rest ⟨st.objs, odSet st.inst K i⟩ K hstep
    · simpa [aliasFold, List.foldl] using ih ⟨st.objs, odSet st.inst al i⟩ h

theorem set_append_length {α : Type} (l : List α) (x y : α) :
    (l ++ [x]).set l.length y = l ++ [y] := by
  induction l with
  | nil => rfl
  | cons a t ih => simp [List.set, ih]

theorem getD_append_length {α : Type} (l : List α) (x d : α) :
    (l ++ [x]).getD l.length d = x := by
  induction l with
  | nil => rfl
  | cons a t ih => simp [List.getD, ih]

/-- Construction always leaves `obo_name` registered, mapped to the
returned object. -/
theorem relationship_registered (s : PState) (N : String) (a : Args) :
    odLookup (Relationship s N a).2.inst N = some (Relationship s N a).1 := by
  cases h : odLookup s.inst N with
  | some i => simp [Relationship, relNew, relInit, odContains, h]
  | none =>
    simp only [Relationship, relNew, relInit, odContains, h, Option.isSome_none,
      Bool.false_eq_true, if_false]
    exact aliasFold_lookup_preserve _ _ _ _ (odLookup_odSet_self _ _ _)

/-- Construction of an unregistered name allocates the record at the end
of the heap and stores the attribute block there. -/
theorem relationship_fresh (s : PState) (N : String) (a : Args)
    (h : odLookup s.inst N = none) :
    (Relationship s N a).1 = s.objs.length ∧
      (Relationship s N a).2.objs = s.objs ++ [some (mkData N a)] := by
  refine ⟨by simp [Relationship, relNew, h], ?_⟩
  simp only [Relationship, relNew, relInit, odContains, h, Option.isSome_none,
    Bool.false_eq_true, if_false]
  rw [aliasFold_objs]
  exact set_append_length s.objs none (some (mkData N a))

/-! ## Claim theorems

In `seedState` the heap indices are: `is_a` = 0, `can_be` = 1,
`has_part` = 2, `part_of` = 3 (also keyed by its alias `is_part`),
`has_units` = 4, `has_domain` = 5. -/

/-- Claim C1: idempotent construction.  First, every construction request
leaves its name registered, mapped to the returned record.  Second,
whenever a name `N` is registered (mapping to record `i`) — as it is
after a first construction request for `N` — a construction request for
`N` with any parameter set `a` returns that very record and leaves the
entire state (every record's fields and the registry) unchanged, the
parameters being silently discarded. -/
theorem construction_idempotent :
    (∀ (s : PState) (N : String) (a : Args),
      odLookup (Relationship s N a).2.inst N = some (Relationship s N a).1) ∧
    (∀ (s : PState) (N : String) (i : Nat) (a : Args),
      odLookup s.inst N = some i → Relationship s N a = (i, s)) := by
  refine ⟨relationship_registered, fun s N i a h => ?_⟩
  simp [Relationship, relNew, relInit, odContains, h]

/-- Witness for C1: `is_a` is registered as record 0 of the seed state by
its first construction; a later construction request for `is_a` with a
completely different parameter set returns record 0 and the unchanged
state. -/
theorem construction_idempotent_witness :
    Relationship seedState "is_a"
      ⟨some true, some false, some false, some "zzz", some "p",
       some "horizontal", some "c", some ["alias_x"]⟩ = (0, seedState) :=
  construction_idempotent.2 seedState "is_a" 0 _ (by rfl)

/-- Claim C2 (code bug): `Relationship.__init__` executes
`self.transitivity = reflexivity`, so constructing a fresh record with
`transitivity=True, reflexivity=False` stores transitivity `False` — not
the transitivity argument `True` as both the claim and the method's own
docstring state. -/
theorem stored_transitivity_is_reflexivity_arg :
    ((Relationship PState.empty "rel_t"
        ⟨none, some true, some false, none, none, none, none, none⟩).2.objs.getD 0
        none).map RelData.transitivity = some (some false) ∧
    (some (some false) : Option (Option Bool)) ≠ some (some true) :=
  ⟨rfl, by simp⟩

/-- Counterexample to C3: record 0 is registered under `"a"`; then a new
record (index 1) is constructed under `"b"` with alias `"a"`.  The claim
says the registry's mapping for `"a"` is left pointing at record 0; in
fact the alias loop's unconditional store leaves it pointing at record 1. -/
theorem alias_overwrite_counterexample :
    odLookup ((Relationship PState.empty "a" Args.empty).2).inst "a" = some 0 ∧
    odLookup ((Relationship (Relationship PState.empty "a" Args.empty).2 "b"
        ⟨none, none, none, none, none, none, none, some ["a"]⟩).2).inst "a"
      = some 1 ∧
    (1 : Nat) ≠ 0 :=
  ⟨rfl, rfl, by simp⟩

/-- Claim C3 as amended: alias collision is resolved by overwriting — for
every construction of a new record (name `N` not yet registered) whose
alias list contains `K`, the registry's mapping for `K` afterwards points
at the newly constructed record (last registrant wins; no error is
raised, the operation being total). -/
theorem alias_last_registrant_wins (s : PState) (N : String) (a : Args)
    (K : String) (hN : odLookup s.inst N = none) (hK : K ∈ a.aliases.getD []) :
    odLookup (Relationship s N a).2.inst K = some (Relationship s N a).1 := by
  simp only [Relationship, relNew, relInit, odContains, hN, Option.isSome_none,
    Bool.false_eq_true, if_false]
  exact aliasFold_lookup_mem _ _ _ _ hK

/-- Witness for the amended C3 at the counterexample's input. -/
theorem alias_last_registrant_wins_witness :
    odLookup ((Relationship (Relationship PState.empty "a" Args.empty).2 "b"
        ⟨none, none, none, none, none, none, none, some ["a"]⟩).2).inst "a"
      = some ((Relationship (Relationship PState.empty "a" Args.empty).2 "b"
        ⟨none, none, none, none, none, none, none, some ["a"]⟩).1) :=
  alias_last_registrant_wins _ "b" _ "a" (by rfl) (by simp)

/-- Claim C4 (code bug): the two non-error branches behave as claimed —
`has_units` (record 4, empty `complementary`) yields `None` and
`has_part` (record 2) yields the registered `part_of` (record 3) — but in
the error branch the raised `ValueError`'s message is the verbatim
template `'\x7b\x7d has a complementary but it was not defined !'`: the
source never formats it, so the error does not carry the missing name
(here `"gloop"`, absent from the message). -/
theorem complement_error_message_lacks_name :
    (complement seedState 4).1 = Except.ok none ∧
    (complement seedState 2).1 = Except.ok (some 3) ∧
    (complement (Relationship PState.empty "x"
        ⟨none, none, none, some "gloop", none, none, none, none⟩).2 0).1
      = Except.error (PyErr.valueError complementUndefinedMsg) ∧
    hasSubstring complementUndefinedMsg.data "gloop".data = false :=
  ⟨rfl, rfl, rfl, by decide⟩

/-- Claim C5: a record serializes to its name alone (`__getnewargs__`
yields exactly `obo_name`), and deserializing a name in a state where
that name is registered returns the registered record itself and leaves
the state untouched. -/
theorem serialization_identity :
    (∀ (s : PState) (i : Nat) (d : RelData),
      s.objs.getD i none = some d → getnewargs s i = Except.ok d.obo_name) ∧
    (∀ (s : PState) (nm : String) (j : Nat),
      odLookup s.inst nm = some j → unpickle s nm = (j, s)) := by
  constructor
  · intro s i d h
    unfold getnewargs
    rw [h]
  · intro s nm j h
    simp [unpickle, relNew, h]

/-- Witness for C5: the canonical `is_a` record (index 0 of the seed
state) serializes to `"is_a"`, and deserializing `"is_a"` against the
seeded registry returns record 0 and the unchanged state. -/
theorem serialization_identity_witness :
    getnewargs seedState 0 = Except.ok "is_a" ∧
    unpickle seedState "is_a" = (0, seedState) :=
  ⟨serialization_identity.1 seedState 0
      ⟨"is_a", some false, some true, some true, "can_be", "", "bottomup", "", []⟩
      (by rfl),
   serialization_identity.2 seedState "is_a" 0 (by rfl)⟩

/-- Counterexample to C6: deserializing the unregistered name
`"frobnicate"` against the seed state yields an object that is *not*
registered in the registry under that name (the registry is unchanged),
and whose heap slot holds no attributes at all. -/
theorem unpickle_unknown_not_registered :
    odLookup (unpickle seedState "frobnicate").2.inst "frobnicate" = none ∧
    (unpickle seedState "frobnicate").2.inst = seedState.inst ∧
    (unpickle seedState "frobnicate").2.objs.getD
      (unpickle seedState "frobnicate").1 none = none :=
  ⟨rfl, rfl, rfl⟩

/-- Claim C6 as amended: when the receiving state has no record under the
serialized name, deserialization does not fail and yields a fresh, bare
record — allocated past the end of the existing heap, with no attributes
set — and the registry is left unchanged: the new record is *not*
registered under the name. -/
theorem unpickle_unknown_fresh_bare (s : PState) (nm : String)
    (h : odLookup s.inst nm = none) :
    unpickle s nm = (s.objs.length, ⟨s.objs ++ [none], s.inst⟩) := by
  simp [unpickle, relNew, h]

/-- Witness for the amended C6 at the seed state and name `"frobnicate"`. -/
theorem unpickle_unknown_fresh_bare_witness :
    unpickle seedState "frobnicate"
      = (6, ⟨seedState.objs ++ [none], seedState.inst⟩) :=
  unpickle_unknown_fresh_bare seedState "frobnicate" (by rfl)

/-- Claim C7: on the seed state, complement is an involution on the four
paired records: `is_a` (0) ↔ `can_be` (1) and `has_part` (2) ↔
`part_of` (3), so `complement (complement X)` returns `X` itself for each
of the four. -/
theorem complement_involution_on_seeds :
    ((complement seedState 0).1 = Except.ok (some 1) ∧
     (complement seedState 1).1 = Except.ok (some 0)) ∧
    ((complement seedState 2).1 = Except.ok (some 3) ∧
     (complement seedState 3).1 = Except.ok (some 2)) :=
  ⟨⟨rfl, rfl⟩, ⟨rfl, rfl⟩⟩

/-- Claim C8: on the seed state, `bottomup()` returns exactly records
0 (`is_a`) and 3 (`part_of`) and `topdown()` exactly records 1 (`can_be`)
and 2 (`has_part`), each exactly once and in first-registered order —
record 3 appears once although the registry also keys it under the alias
`is_part`. -/
theorem classification_partition_on_seeds :
    topdown seedState = Except.ok [1, 2] ∧
    bottomup seedState = Except.ok [0, 3] ∧
    odLookup seedState.inst "is_a" = some 0 ∧
    odLookup seedState.inst "can_be" = some 1 ∧
    odLookup seedState.inst "has_part" = some 2 ∧
    odLookup seedState.inst "part_of" = some 3 ∧
    odLookup seedState.inst "is_part" = some 3 :=
  ⟨rfl, rfl, rfl, rfl, rfl, rfl, rfl⟩

/-- Counterexample to C9: a stanza with `is_symmetric: "false"` and no
`is_antisymetric` key produces a record whose stored symmetry is unknown
(`none`), not `false` as the claim states — the source's
`symmetry = symmetry or None` collapses the parsed `False`. -/
theorem adapter_symmetry_false_counterexample :
    ((from_obo_dict PState.empty
        ⟨"sym_rel", none, none, some "false", none, none⟩).2.objs.getD 0
        none).map RelData.symmetry = some none ∧
    (some (none : Option Bool)) ≠ some (some false) :=
  ⟨rfl, by simp⟩

/-- Claim C9 as amended: for every stanza whose id is not yet registered,
the stored symmetry equals `specSymmetry`: a present `is_antisymetric`
forces the case-insensitive comparison of its value to `"false"` (a
non-unknown value even when `is_symmetric` is absent); otherwise
`is_symmetric` compared case-insensitively to `"true"` yields `true`, but
a parsed `false` — and an absent key — yields unknown. -/
theorem adapter_symmetry_derivation (s : PState) (d : OboDict)
    (h : odLookup s.inst d.id = none) :
    ((from_obo_dict s d).2.objs.getD (from_obo_dict s d).1 none).map
      RelData.symmetry = some (specSymmetry d) := by
  simp only [from_obo_dict, h]
  obtain ⟨h1, h2⟩ := relationship_fresh s d.id
    ⟨match d.is_antisymetric with
      | some v => some (lower v = "false")
      | none =>
        triOrNone (match d.is_symmetric with
          | some v => some (lower v = "true")
          | none => none),
     match d.is_transitive with
      | some v => some (lower v = "true")
      | none => none,
     match d.is_reflexive with
      | some v => some (lower v = "true")
      | none => none,
     some (match d.inverse_of with
      | some v => v
      | none => ""),
     none, none, none, none⟩ h
  rw [h1, h2, getD_append_length]
  simp only [Option.map_some, Option.some.injEq, mkData, specSymmetry]
  cases d.is_antisymetric with
  | some v => rfl
  | none =>
    cases d.is_symmetric with
    | some v =>
      by_cases hv : lower v = "true" <;> simp [triOrNone, hv]
    | none => rfl

/-- Witness for the amended C9: the stanza `\x7bid: "anti_rel",
is_antisymetric: "False"\x7d` (no `is_symmetric` key) against the empty
state stores symmetry `some true` — a non-unknown value. -/
theorem adapter_symmetry_derivation_witness :
    odLookup PState.empty.inst "anti_rel" = none ∧
    ((from_obo_dict PState.empty
        ⟨"anti_rel", none, none, none, none, some "False"⟩).2.objs.getD
        (from_obo_dict PState.empty
          ⟨"anti_rel", none, none, none, none, some "False"⟩).1 none).map
      RelData.symmetry
      = some (specSymmetry ⟨"anti_rel", none, none, none, none, some "False"⟩) :=
  ⟨rfl, adapter_symmetry_derivation PState.empty
    ⟨"anti_rel", none, none, none, none, some "False"⟩ (by rfl)⟩

/-- Claim C10: `complement` is read-only and atomic on error — for every
record and every state, the state it returns is exactly the state it was
given, in the `None` branch, the registered-complement branch, the
unregistered-complement error branch, and even the attribute-error branch
on an uninitialised object. -/
theorem complement_state_unchanged (s : PState) (i : Nat) :
    (complement s i).2 = s := by
  unfold complement
  cases hd : s.objs.getD i none with
  | none => rfl
  | some d =>
    dsimp only
    by_cases hc : d.complementary = ""
    · simp [hc]
    · rw [if_pos hc]
      cases hl : odLookup s.inst d.complementary <;> rfl

end Pronto
